import Mathlib

/-!
Verification of the H5Mobaku population store against its specification.

The definitions below are a shallow embedding of the C sources:
  - `meshid_search_id` and its constants from meshid_ops (src/unnamed/part_002,
    include/csv_to_h5_converter.h),
  - the block detection and routing of `h5mobaku_read_multi_mesh_time_series`
    (src/src/h5mobaku_ops.c),
  - the chunked-matrix engine operations `h5r_read_cell`, `h5r_write_cell`,
    `h5r_extend_time_dimension` (src/src/h5mr_core.c, src/unnamed/part_002),
  - the store facade open/convert helpers (src/src/h5mobaku_ops.c),
  - the streaming consumer and bulk-year producer of the CSV converter
    (src/src/csv_to_h5_converter.c),
  - the virtual-dataset composition of `create_vds_integrated_file`
    (src/src/h5m-reader.c).

Machine integers are modelled as `Nat`/`Int`; HDF5 I/O success is modelled by
`Option`, with `none` standing for the C functions' `-1` error returns.
The cmph minimal perfect hash is external library code, so it is modelled as
an opaque string-to-index function carried in a `CmphHash` value.
-/

set_option maxRecDepth 8192

namespace H5Mobaku

/-- MESHID_NOT_FOUND is UINT32_MAX, the sentinel `meshid_search_id` returns for
unknown keys (include/meshid_ops.h). -/
def MESHID_NOT_FOUND : Nat := 4294967295

/-- SPECIAL_MESH_ID, the single hard-coded exceptional mesh key
(include/csv_to_h5_converter.h line 320). -/
def SPECIAL_MESH_ID : Nat := 684827214

/-- SPECIAL_MESH_INDEX, the dense index of the exceptional key
(include/csv_to_h5_converter.h line 321). -/
def SPECIAL_MESH_INDEX : Nat := 1553331

/-- MOBAKU_MESH_COUNT, the fixed mesh cardinality N (include/csv_to_h5_converter.h). -/
def MOBAKU_MESH_COUNT : Nat := 1553332

/-- NBLK_THRESHOLD, the block-count threshold of the multi-mesh reader
(include/csv_to_h5_converter.h line 123). -/
def NBLK_THRESHOLD : Nat := 128

/-- meshid_uint_to_str formats a number as its decimal digit string
(src/unnamed/part_002 lines 106-124: repeated division by 10, then reversal). -/
def meshid_uint_to_str (n : Nat) : String := String.mk (Nat.toDigits 10 n)

/-- CmphHash models the opaque cmph minimal-perfect-hash handle: `search` is
`cmph_search` on a key string.  The cmph library is outside this repository, so
its behaviour is an arbitrary function; on keys of the embedded universe it
returns their dense index, on other strings it may return anything. -/
structure CmphHash where
  search : String → Nat

/-- meshid_search_id (src/unnamed/part_002 lines 145-160): special-case the
hard-coded key, reject keys outside the 9-digit decimal range, otherwise return
the cmph candidate for the decimal string of the key.  The source performs no
`meshid_list[idx] == key` verification. -/
def meshid_search_id (hash : CmphHash) (key : Nat) : Nat :=
  if key = SPECIAL_MESH_ID then SPECIAL_MESH_INDEX
  else if key < 100000000 ∨ 999999999 < key then MESHID_NOT_FOUND
  else hash.search (meshid_uint_to_str key)

/-- Example hash behaviour used for concrete evaluations: a cmph function that
maps every string to candidate index 0 (legitimate behaviour of cmph on keys
outside the universe it was built from). -/
def exHash : CmphHash := ⟨fun _ => 0⟩

/-- Example two-key universe list used for concrete evaluations. -/
def exUniverse : List Nat := [100000000, 100000001]

/-- C1 counterexample: the claim says that whenever the MPH candidate index idx
does not satisfy `U[idx] == key`, resolve returns NOT_FOUND instead of the
candidate.  With universe `exUniverse` and a cmph behaviour returning candidate
0 for the non-member in-range key 100000002, `meshid_search_id` returns the
candidate 0 even though `U[0] = 100000000 ≠ 100000002`: the source contains no
universe verification. -/
theorem meshid_search_id_returns_unverified_candidate :
    meshid_search_id exHash 100000002 = 0 ∧
    exUniverse.get? 0 = some 100000000 ∧
    (100000000 : Nat) ≠ 100000002 ∧
    (0 : Nat) ≠ MESHID_NOT_FOUND := by
  refine ⟨?_, by decide, by decide, by decide⟩
  rfl

/-- C1 (amended): for every key in the legal decimal range `[10^8, 10^9)` other
than the special key, `meshid_search_id` returns the raw cmph candidate for the
key's decimal string, unconditionally; no `U[idx] == key` check is performed,
so a mismatching candidate is returned as-is rather than NOT_FOUND. -/
theorem meshid_search_id_eq_cmph_candidate (hash : CmphHash) (key : Nat)
    (h1 : 100000000 ≤ key) (h2 : key ≤ 999999999) (h3 : key ≠ SPECIAL_MESH_ID) :
    meshid_search_id hash key = hash.search (meshid_uint_to_str key) := by
  unfold meshid_search_id
  rw [if_neg h3, if_neg]
  omega

/-- Witness for `meshid_search_id_eq_cmph_candidate` at the concrete key
100000002 with the example hash. -/
theorem meshid_search_id_eq_cmph_candidate_witness :
    meshid_search_id exHash 100000002 = exHash.search (meshid_uint_to_str 100000002) :=
  meshid_search_id_eq_cmph_candidate exHash 100000002 (by decide) (by decide) (by decide)

/-- C8 counterexample: the claim says the single hard-coded exceptional key is a
10-digit key.  The constant table pins the exceptional key to
`SPECIAL_MESH_ID = 684827214`, which has 9 digits and lies inside the legal
decimal range; 10-digit candidates such as 1000000000 and 6848272140 are
rejected with NOT_FOUND by the digit filter. -/
theorem meshid_search_id_special_key_is_nine_digits :
    SPECIAL_MESH_ID = 684827214 ∧
    100000000 ≤ SPECIAL_MESH_ID ∧ SPECIAL_MESH_ID ≤ 999999999 ∧
    meshid_search_id exHash 1000000000 = MESHID_NOT_FOUND ∧
    meshid_search_id exHash 6848272140 = MESHID_NOT_FOUND ∧
    meshid_search_id exHash SPECIAL_MESH_ID = SPECIAL_MESH_INDEX := by
  refine ⟨rfl, by decide, by decide, ?_, ?_, ?_⟩ <;> rfl

/-- C8 (amended): `meshid_search_id` rejects with NOT_FOUND every key outside
the decimal range `[10^8, 10^9)`, without exception; the single hard-coded
exceptional key `SPECIAL_MESH_ID = 684827214` is a 9-digit key inside that
range and resolves to the dedicated trailing dense index
`SPECIAL_MESH_INDEX = 1553331 = N - 1` before the MPH is consulted. -/
theorem meshid_search_id_range_filter_spec (hash : CmphHash) :
    (∀ key : Nat, key < 100000000 ∨ 999999999 < key →
      meshid_search_id hash key = MESHID_NOT_FOUND) ∧
    meshid_search_id hash SPECIAL_MESH_ID = SPECIAL_MESH_INDEX ∧
    SPECIAL_MESH_INDEX = MOBAKU_MESH_COUNT - 1 ∧
    100000000 ≤ SPECIAL_MESH_ID ∧ SPECIAL_MESH_ID ≤ 999999999 := by
  refine ⟨?_, ?_, by decide, by decide, by decide⟩
  · intro key hk
    unfold meshid_search_id
    rw [if_neg, if_pos hk]
    intro h
    rw [h] at hk
    revert hk
    decide
  · unfold meshid_search_id
    rw [if_pos rfl]

/-- Witness for `meshid_search_id_range_filter_spec` at the concrete out-of-range
key 99. -/
theorem meshid_search_id_range_filter_spec_witness :
    meshid_search_id exHash 99 = MESHID_NOT_FOUND ∧
    meshid_search_id exHash SPECIAL_MESH_ID = SPECIAL_MESH_INDEX :=
  ⟨(meshid_search_id_range_filter_spec exHash).1 99 (Or.inl (by decide)),
   (meshid_search_id_range_filter_spec exHash).2.1⟩

/-- h5r_block_t, one contiguous column block of the multi-mesh reader
(H5MR header): `dcol0` is the first file column, `mcol0` the first memory
column, `ncols` the width. -/
structure h5r_block_t where
  dcol0 : Nat
  mcol0 : Nat
  ncols : Nat
deriving DecidableEq, Repr

/-- Helper for `detect_blocks`: walks the remaining dense-column list while
tracking the current block (its first column, previous column, start position
and length), closing a block whenever the ascending-by-one run breaks.  This is
the loop of h5mobaku_read_multi_mesh_time_series step 2
(src/src/h5mobaku_ops.c lines 336-344). -/
def detect_blocks_go (blockStart prev startPos len : Nat) :
    List Nat → List h5r_block_t
  | [] => [⟨blockStart, startPos, len⟩]
  | x :: xs =>
    if x = prev + 1 then detect_blocks_go blockStart x startPos (len + 1) xs
    else ⟨blockStart, startPos, len⟩ :: detect_blocks_go x x (startPos + len) 1 xs

/-- detect_blocks partitions the dense-column list `dcols` into its maximal
ascending-by-one runs, emitting one `(dcol0, mcol0, ncols)` triple per run
(src/src/h5mobaku_ops.c lines 332-345). -/
def detect_blocks : List Nat → List h5r_block_t
  | [] => []
  | d :: rest => detect_blocks_go d d 0 1 rest

/-- ReadStrategy names the execution strategies the specification's planner
vocabulary distinguishes for a multi-mesh time-series read: a single
union-of-hyperslabs read of block triples into a dense row-major buffer with
the given row stride, a per-mesh column-range fallback loop, or an irregular
element-list point selection. -/
inductive ReadStrategy where
  | singleUnionOfHyperslabs (blocks : List h5r_block_t) (dst_stride : Nat)
  | perColumnFallback
  | elementList
deriving DecidableEq, Repr

/-- Route branching of h5mobaku_read_multi_mesh_time_series
(src/src/h5mobaku_ops.c lines 347-395): when the number of detected blocks
exceeds NBLK_THRESHOLD the read is one `h5r_read_blocks_union` call over the
block triples with destination stride `num_meshes`; otherwise the function
falls back to one `h5mobaku_read_population_time_series` column read per mesh,
copied into the dense buffer. -/
def h5mobaku_read_multi_mesh_time_series_route (dcols : List Nat) : ReadStrategy :=
  if (detect_blocks dcols).length > NBLK_THRESHOLD then
    ReadStrategy.singleUnionOfHyperslabs (detect_blocks dcols) dcols.length
  else ReadStrategy.perColumnFallback

/-- Example dense-column list forming 129 singleton blocks (every second
column), and a two-block list. -/
def exManyBlocks : List Nat := (List.range 129).map (fun i => 2 * i)

/-- C2 counterexample: the claim says more than 128 blocks selects the
element-list strategy and 128 or fewer selects the block-union read.  On the
concrete 129-block request the code takes the union-of-hyperslabs route, not
element-list; and on a 2-block request it takes the per-column fallback, not a
block-union read. -/
theorem multi_mesh_route_over_threshold_is_union :
    (detect_blocks exManyBlocks).length = 129 ∧
    NBLK_THRESHOLD < 129 ∧
    h5mobaku_read_multi_mesh_time_series_route exManyBlocks ≠ ReadStrategy.elementList ∧
    h5mobaku_read_multi_mesh_time_series_route exManyBlocks =
      ReadStrategy.singleUnionOfHyperslabs (detect_blocks exManyBlocks) 129 ∧
    (detect_blocks [0, 5]).length = 2 ∧
    h5mobaku_read_multi_mesh_time_series_route [0, 5] =
      ReadStrategy.perColumnFallback := by
  refine ⟨by decide, by decide, by decide, by decide, by decide, by decide⟩

/-- C2 (amended): when the mesh-index list partitions into more than
NBLK_THRESHOLD (128) maximal ascending-by-one blocks, the read is executed as a
single union-of-hyperslabs read of the `(dcol0, mcol0, ncols)` triples into a
dense buffer with row stride `|M|`; with 128 or fewer blocks it is executed as
a per-mesh column-range fallback loop instead. -/
theorem multi_mesh_route_spec (dcols : List Nat) :
    ((detect_blocks dcols).length > NBLK_THRESHOLD →
      h5mobaku_read_multi_mesh_time_series_route dcols =
        ReadStrategy.singleUnionOfHyperslabs (detect_blocks dcols) dcols.length) ∧
    ((detect_blocks dcols).length ≤ NBLK_THRESHOLD →
      h5mobaku_read_multi_mesh_time_series_route dcols =
        ReadStrategy.perColumnFallback) := by
  constructor
  · intro h
    unfold h5mobaku_read_multi_mesh_time_series_route
    rw [if_pos h]
  · intro h
    unfold h5mobaku_read_multi_mesh_time_series_route
    rw [if_neg (by omega)]

/-- Witness for `multi_mesh_route_spec` at the 129-block and 2-block concrete
requests. -/
theorem multi_mesh_route_spec_witness :
    h5mobaku_read_multi_mesh_time_series_route exManyBlocks =
      ReadStrategy.singleUnionOfHyperslabs (detect_blocks exManyBlocks) exManyBlocks.length ∧
    h5mobaku_read_multi_mesh_time_series_route [0, 5] = ReadStrategy.perColumnFallback :=
  ⟨(multi_mesh_route_spec exManyBlocks).1 (by decide),
   (multi_mesh_route_spec [0, 5]).2 (by decide)⟩

/-- h5r models the chunked-matrix engine handle `struct h5r`: current extents
`rows × cols`, the writability flag set by the open path, and the cell contents
of the backing dataset as a total function (cells never written hold the fill
value of their creation state). -/
structure h5r where
  rows : Nat
  cols : Nat
  is_writable : Bool
  data : Nat → Nat → Int

/-- h5r_read_cell (src/src/h5mr_core.c lines 160-169): select the single
element `(row, col)` and read it; HDF5 fails the read when the selection lies
outside the dataset extents, which the model returns as `none`. -/
def h5r_read_cell (ctx : h5r) (row col : Nat) : Option Int :=
  if row < ctx.rows ∧ col < ctx.cols then some (ctx.data row col) else none

/-- h5r_write_cell (src/unnamed/part_002 lines 780-798): reject a non-writable
handle or out-of-extent coordinates with -1 (modelled `none`), otherwise write
the value at `(row, col)`. -/
def h5r_write_cell (ctx : h5r) (row col : Nat) (value : Int) : Option h5r :=
  if ctx.is_writable ∧ row < ctx.rows ∧ col < ctx.cols then
    some { ctx with data := fun r c => if r = row ∧ c = col then value else ctx.data r c }
  else none

/-- h5r_extend_time_dimension (src/unnamed/part_002 lines 763-778): reject a
non-writable handle and any requested extent `new_time_points ≤ rows` with -1
(modelled `none`), otherwise grow the time axis to the requested extent. -/
def h5r_extend_time_dimension (ctx : h5r) (new_time_points : Nat) : Option h5r :=
  if ctx.is_writable ∧ ctx.rows < new_time_points then
    some { ctx with rows := new_time_points }
  else none

/-- C3: on a store opened read-write, writing value v to the in-bounds cell
(t, m) with `h5r_write_cell` and immediately reading the same cell back with
`h5r_read_cell` yields v. -/
theorem h5r_write_then_read_cell (ctx : h5r) (t m : Nat) (v : Int)
    (hw : ctx.is_writable = true) (ht : t < ctx.rows) (hm : m < ctx.cols) :
    (h5r_write_cell ctx t m v).bind (fun ctx2 => h5r_read_cell ctx2 t m) = some v := by
  simp [h5r_write_cell, h5r_read_cell, hw, ht, hm]

/-- Witness for `h5r_write_then_read_cell` on a concrete 2 × 3 writable store
at cell (1, 2) with value -5. -/
theorem h5r_write_then_read_cell_witness :
    (h5r_write_cell ⟨2, 3, true, fun _ _ => 0⟩ 1 2 (-5)).bind
      (fun ctx2 => h5r_read_cell ctx2 1 2) = some (-5) :=
  h5r_write_then_read_cell ⟨2, 3, true, fun _ _ => 0⟩ 1 2 (-5) rfl (by decide) (by decide)

/-- Example writable 5-row store used for concrete evaluations. -/
def exStore5 : h5r := ⟨5, 4, true, fun _ _ => 0⟩

/-- C7 counterexample: the claim says `extend_time(T)` with T equal to the
current time dimension succeeds as a no-op with no error.  On the concrete
writable 5-row store, requesting extent 5 is rejected with -1 (modelled
`none`): the guard `new_time_points <= ctx->rows` treats equality as an
error. -/
theorem h5r_extend_time_dimension_equal_fails :
    exStore5.rows = 5 ∧
    exStore5.is_writable = true ∧
    h5r_extend_time_dimension exStore5 5 = none := by
  refine ⟨rfl, rfl, ?_⟩
  rfl

/-- C7 (amended): `extend_time(T)` with `T ≤ T_current` fails, returning the
-1 error and leaving the store unchanged, for `T = T_current` just as for
`T < T_current`; only `T > T_current` on a writable handle succeeds, growing
the time axis to T. -/
theorem h5r_extend_time_dimension_spec (ctx : h5r) (T : Nat) :
    (T ≤ ctx.rows → h5r_extend_time_dimension ctx T = none) ∧
    (ctx.is_writable = true → ctx.rows < T →
      h5r_extend_time_dimension ctx T = some { ctx with rows := T }) := by
  constructor
  · intro h
    unfold h5r_extend_time_dimension
    rw [if_neg]
    intro hc
    omega
  · intro hw hT
    unfold h5r_extend_time_dimension
    rw [if_pos ⟨hw, hT⟩]

/-- Witness for `h5r_extend_time_dimension_spec` at extents 5 and 7 on the
concrete 5-row store. -/
theorem h5r_extend_time_dimension_spec_witness :
    h5r_extend_time_dimension exStore5 5 = none ∧
    h5r_extend_time_dimension exStore5 7 = some { exStore5 with rows := 7 } :=
  ⟨(h5r_extend_time_dimension_spec exStore5 5).1 (by decide),
   (h5r_extend_time_dimension_spec exStore5 7).2 rfl (by decide)⟩

/-- Growth target computed by the streaming consumer when a work item's time
index reaches the current extent (src/src/csv_to_h5_converter.c lines
459-461): `new_size = current * 3 / 2`, replaced by `time_index + 100` when
that does not pass the requested index. -/
def h5_consumer_new_size (current_time_points time_index : Nat) : Nat :=
  let new_size := current_time_points * 3 / 2
  if new_size ≤ time_index then time_index + 100 else new_size

/-- Growth target the claim states: `max(⌈T·3/2⌉, t + 100)`. -/
def claimed_growth_target (current_time_points time_index : Nat) : Nat :=
  max ((3 * current_time_points + 1) / 2) (time_index + 100)

/-- Streaming-consumer handling of one dequeued work item in incremental mode
(src/src/csv_to_h5_converter.c lines 442-487): when the item's time index
reaches the current time dimension, extend to `h5_consumer_new_size` first;
on extension failure count an error and drop the item; then issue the single
cell write.  The returned flag is true exactly when the cell write was
issued and succeeded. -/
def h5_consumer_process_item (writer : h5r) (time_index mesh_index : Nat)
    (population : Int) : h5r × Bool :=
  if writer.rows ≤ time_index then
    match h5r_extend_time_dimension writer (h5_consumer_new_size writer.rows time_index) with
    | none => (writer, false)
    | some w =>
      match h5r_write_cell w time_index mesh_index population with
      | none => (w, false)
      | some w2 => (w2, true)
  else
    match h5r_write_cell writer time_index mesh_index population with
    | none => (writer, false)
    | some w2 => (w2, true)

/-- C6 counterexample: with current time dimension 10 and a work item at time
index 10, the code extends to `10 * 3 / 2 = 15`, while the claimed rule
`max(⌈10·3/2⌉, 10 + 100)` gives 110; processing the item on a concrete
writable 10-row store indeed leaves the time dimension at 15. -/
theorem h5_consumer_growth_counterexample :
    h5_consumer_new_size 10 10 = 15 ∧
    claimed_growth_target 10 10 = 110 ∧
    (15 : Nat) ≠ 110 ∧
    ((h5_consumer_process_item ⟨10, 4, true, fun _ _ => 0⟩ 10 2 7).1).rows = 15 := by
  refine ⟨by decide, by decide, by decide, ?_⟩
  rfl

/-- C6 (amended): whenever the consumer dequeues a work item whose time index t
satisfies `t ≥ T_current`, it extends the time dimension to `⌊T_current·3/2⌋`
when that value exceeds t, and to `t + 100` otherwise, before issuing the cell
write; the write then stores the item's value at (t, mesh). -/
theorem h5_consumer_extends_before_write (writer : h5r) (t m : Nat) (v : Int)
    (hw : writer.is_writable = true) (ht : writer.rows ≤ t) (hm : m < writer.cols) :
    ((h5_consumer_process_item writer t m v).1).rows = h5_consumer_new_size writer.rows t ∧
    ((h5_consumer_process_item writer t m v).1).data t m = v ∧
    (h5_consumer_process_item writer t m v).2 = true ∧
    h5_consumer_new_size writer.rows t =
      (if t < writer.rows * 3 / 2 then writer.rows * 3 / 2 else t + 100) := by
  have hgt : t < h5_consumer_new_size writer.rows t := by
    unfold h5_consumer_new_size
    by_cases hc : writer.rows * 3 / 2 ≤ t
    · rw [if_pos hc]; omega
    · rw [if_neg hc]; omega
  have hrows : writer.rows < h5_consumer_new_size writer.rows t := by omega
  have hext : h5r_extend_time_dimension writer (h5_consumer_new_size writer.rows t) =
      some { writer with rows := h5_consumer_new_size writer.rows t } := by
    unfold h5r_extend_time_dimension
    rw [if_pos ⟨hw, hrows⟩]
  have hwrite : h5r_write_cell { writer with rows := h5_consumer_new_size writer.rows t } t m v = some { writer with rows := h5_consumer_new_size writer.rows t, data := fun r c => if r = t ∧ c = m then v else writer.data r c } := by
    unfold h5r_write_cell
    rw [if_pos ⟨hw, hgt, hm⟩]
  refine ⟨?_, ?_, ?_, ?_⟩
  · unfold h5_consumer_process_item
    rw [if_pos ht]
    simp [hext, hwrite]
  · unfold h5_consumer_process_item
    rw [if_pos ht]
    simp [hext, hwrite]
  · unfold h5_consumer_process_item
    rw [if_pos ht]
    simp [hext, hwrite]
  · unfold h5_consumer_new_size
    by_cases hc : writer.rows * 3 / 2 ≤ t
    · rw [if_pos hc, if_neg (by omega)]
    · rw [if_neg hc, if_pos (by omega)]

/-- Witness for `h5_consumer_extends_before_write` on a concrete writable
10-row store with a work item at time index 10, mesh 2, value 7. -/
theorem h5_consumer_extends_before_write_witness :
    ((h5_consumer_process_item ⟨10, 4, true, fun _ _ => 0⟩ 10 2 7).1).rows =
      h5_consumer_new_size 10 10 ∧
    ((h5_consumer_process_item ⟨10, 4, true, fun _ _ => 0⟩ 10 2 7).1).data 10 2 = 7 ∧
    (h5_consumer_process_item ⟨10, 4, true, fun _ _ => 0⟩ 10 2 7).2 = true :=
  ⟨(h5_consumer_extends_before_write ⟨10, 4, true, fun _ _ => 0⟩ 10 2 7 rfl (by decide)
      (by decide)).1,
   (h5_consumer_extends_before_write ⟨10, 4, true, fun _ _ => 0⟩ 10 2 7 rfl (by decide)
      (by decide)).2.1,
   (h5_consumer_extends_before_write ⟨10, 4, true, fun _ _ => 0⟩ 10 2 7 rfl (by decide)
      (by decide)).2.2.1⟩

/-- REFERENCE_MOBAKU_TIME, the built-in default epoch 2016-01-01 00:00:00 as
wall-clock seconds (include/meshid_ops.h). -/
def REFERENCE_MOBAKU_TIME : Int := 1451574000

/-- StoreFile models an on-disk store as the facade sees it: the matrix with
its extents and contents, and the optional `start_datetime` attribute on the
matrix object.  Attribute parsing via strptime/mktime is modelled as the
already-parsed wall-clock seconds; `none` stands for a missing or unparsable
attribute. -/
structure StoreFile where
  matrix : h5r
  attr_start_datetime : Option Int

/-- h5mobaku models `struct h5mobaku`: the wrapped engine handle and the epoch
the facade uses for datetime conversion. -/
structure h5mobaku where
  h5r_ctx : h5r
  start_datetime : Int

/-- h5mobaku_open (src/src/h5mobaku_ops.c lines 60-137): open the matrix
read-only and read the `start_datetime` attribute, falling back to the
REFERENCE_MOBAKU_TIME default when the attribute is missing or does not
parse. -/
def h5mobaku_open (f : StoreFile) : h5mobaku :=
  { h5r_ctx := { f.matrix with is_writable := false }
  , start_datetime := f.attr_start_datetime.getD REFERENCE_MOBAKU_TIME }

/-- h5mobaku_open_readwrite (src/src/h5mobaku_ops.c lines 523-548): open the
matrix read-write; the function sets `start_datetime` to the
REFERENCE_MOBAKU_TIME default unconditionally and never reads the store's
attribute, although its comment says it tries to. -/
def h5mobaku_open_readwrite (f : StoreFile) : h5mobaku :=
  { h5r_ctx := { f.matrix with is_writable := true }
  , start_datetime := REFERENCE_MOBAKU_TIME }

/-- datetime_to_index (src/src/h5mobaku_ops.c lines 155-179) over an
already-parsed target wall-clock time: the hour index is the
seconds-difference from the context's `start_datetime`, divided by 3600 with
truncation toward zero, and negative indices are rejected (differences in
(-3600, 0) truncate to index 0 and are accepted). -/
def datetime_to_index (ctx : h5mobaku) (target_time : Int) : Option Nat :=
  let diff := target_time - ctx.start_datetime
  if diff ≤ -3600 then none
  else if diff < 0 then some 0
  else some (diff.toNat / 3600)

/-- get_mesh_index (src/src/h5mobaku_ops.c lines 38-44): resolve the mesh key
and reject NOT_FOUND and any index at or beyond MOBAKU_MESH_COUNT. -/
def get_mesh_index (hash : CmphHash) (mesh_id : Nat) : Option Nat :=
  let mesh_index := meshid_search_id hash mesh_id
  if mesh_index = MESHID_NOT_FOUND ∨ MOBAKU_MESH_COUNT ≤ mesh_index then none
  else some mesh_index

/-- h5mobaku_read_population_single (src/src/h5mobaku_ops.c lines 213-233):
return -1 on an invalid context or hash, a negative time index, a failed mesh
resolution, or a failed backing read; otherwise return the stored cell value.
The `Option` arguments model NULL context and hash pointers. -/
def h5mobaku_read_population_single (h5_ctx : Option h5r) (hash : Option CmphHash)
    (mesh_id : Nat) (time_index : Int) : Int :=
  match h5_ctx, hash with
  | some ctx, some h =>
    if time_index < 0 then -1
    else
      match get_mesh_index h mesh_id with
      | none => -1
      | some mi =>
        match h5r_read_cell ctx time_index.toNat mi with
        | none => -1
        | some v => v
  | _, _ => -1

/-- h5mobaku_read_population_single_at_time (src/src/h5mobaku_ops.c lines
182-189): convert the datetime with the opened store's `start_datetime`, fail
with -1 when the conversion fails, else delegate to the index flavour. -/
def h5mobaku_read_population_single_at_time (ctx : Option h5mobaku)
    (hash : Option CmphHash) (mesh_id : Nat) (target_time : Int) : Int :=
  match ctx with
  | none => -1
  | some c =>
    match datetime_to_index c target_time with
    | none => -1
    | some idx => h5mobaku_read_population_single (some c.h5r_ctx) hash mesh_id (Int.ofNat idx)

/-- Reader front-end error policy (src/src/h5m-reader.c lines 163-179): the
single-time query treats every negative returned population as a failure. -/
def reader_front_end_reports_error (population : Int) : Bool := population < 0

/-- Concrete 1 × 1 read-only store whose only cell legitimately holds the
stored value -1. -/
def exStoreMinusOne : h5r := ⟨1, 1, false, fun _ _ => -1⟩

/-- C10: the single-cell facade read returns -1 for every failure (invalid
context or hash, negative time index, unknown or out-of-range mesh key, failed
backing read), the datetime flavour returns -1 when its conversion fails, a
successful read returns the stored cell value, and -1 is itself a legal stored
value: on a store whose cell holds -1 the success outcome coincides with every
failure outcome; the reader front-end accordingly classifies every negative
returned population as an error. -/
theorem read_population_single_minus_one_ambiguity :
    (∀ (hash : Option CmphHash) (mesh_id : Nat) (t : Int),
      h5mobaku_read_population_single none hash mesh_id t = -1) ∧
    (∀ (ctx : h5r) (mesh_id : Nat) (t : Int),
      h5mobaku_read_population_single (some ctx) none mesh_id t = -1) ∧
    (∀ (ctx : h5r) (hash : CmphHash) (mesh_id : Nat) (t : Int), t < 0 →
      h5mobaku_read_population_single (some ctx) (some hash) mesh_id t = -1) ∧
    (∀ (ctx : h5r) (hash : CmphHash) (mesh_id : Nat) (t : Int), 0 ≤ t →
      get_mesh_index hash mesh_id = none →
      h5mobaku_read_population_single (some ctx) (some hash) mesh_id t = -1) ∧
    (∀ (ctx : h5r) (hash : CmphHash) (mesh_id : Nat) (t : Int) (mi : Nat), 0 ≤ t →
      get_mesh_index hash mesh_id = some mi →
      h5r_read_cell ctx t.toNat mi = none →
      h5mobaku_read_population_single (some ctx) (some hash) mesh_id t = -1) ∧
    (∀ (ctx : h5r) (hash : CmphHash) (mesh_id : Nat) (t : Int) (mi : Nat), 0 ≤ t →
      get_mesh_index hash mesh_id = some mi →
      t.toNat < ctx.rows → mi < ctx.cols →
      h5mobaku_read_population_single (some ctx) (some hash) mesh_id t =
        ctx.data t.toNat mi) ∧
    (∀ (c : h5mobaku) (hash : Option CmphHash) (mesh_id : Nat) (tt : Int),
      datetime_to_index c tt = none →
      h5mobaku_read_population_single_at_time (some c) hash mesh_id tt = -1) ∧
    (h5mobaku_read_population_single (some exStoreMinusOne) (some exHash) 100000000 0 = -1 ∧
     h5mobaku_read_population_single none (some exHash) 100000000 0 = -1) ∧
    (∀ p : Int, reader_front_end_reports_error p = true ↔ p < 0) := by
  refine ⟨?_, ?_, ?_, ?_, ?_, ?_, ?_, ⟨?_, ?_⟩, ?_⟩
  · intro hash mesh_id t
    cases hash <;> rfl
  · intro ctx mesh_id t
    rfl
  · intro ctx hash mesh_id t h
    simp [h5mobaku_read_population_single, h]
  · intro ctx hash mesh_id t h hm
    simp [h5mobaku_read_population_single, hm, not_lt.mpr h]
  · intro ctx hash mesh_id t mi h hm hr
    simp [h5mobaku_read_population_single, hm, hr, not_lt.mpr h]
  · intro ctx hash mesh_id t mi h hm hrow hcol
    have hr : h5r_read_cell ctx t.toNat mi = some (ctx.data t.toNat mi) := by
      simp [h5r_read_cell, hrow, hcol]
    simp [h5mobaku_read_population_single, hm, hr, not_lt.mpr h]
  · intro c hash mesh_id tt h
    simp [h5mobaku_read_population_single_at_time, h]
  · rfl
  · rfl
  · intro p
    simp [reader_front_end_reports_error]

/-- Witness for `read_population_single_minus_one_ambiguity`: its negative-time
failure clause evaluated at the concrete store `exStoreMinusOne`, time -1. -/
theorem read_population_single_minus_one_ambiguity_witness :
    h5mobaku_read_population_single (some exStoreMinusOne) (some exHash) 100000000 (-1) = -1 :=
  read_population_single_minus_one_ambiguity.2.2.1 exStoreMinusOne exHash 100000000 (-1)
    (by decide)

/-- Concrete store file whose `start_datetime` attribute parses to one hour
after the built-in default epoch. -/
def exShiftedStore : StoreFile :=
  ⟨⟨2, 2, false, fun _ _ => 0⟩, some (REFERENCE_MOBAKU_TIME + 3600)⟩

/-- C5: the claim says every datetime-string flavoured operation converts its
datetime with the epoch attribute of the opened store for every way of opening
it.  On the concrete store whose attribute is one hour after the default
epoch, the read-only open adopts the attribute, but
`h5mobaku_open_readwrite` never reads the attribute and keeps the hard-coded
default, so the same datetime converts to hour index 0 through the read-only
handle and to hour index 1 through the read-write handle. -/
theorem h5mobaku_open_readwrite_ignores_epoch_attribute :
    (h5mobaku_open exShiftedStore).start_datetime = REFERENCE_MOBAKU_TIME + 3600 ∧
    (h5mobaku_open_readwrite exShiftedStore).start_datetime = REFERENCE_MOBAKU_TIME ∧
    exShiftedStore.attr_start_datetime = some (REFERENCE_MOBAKU_TIME + 3600) ∧
    datetime_to_index (h5mobaku_open exShiftedStore) (REFERENCE_MOBAKU_TIME + 3600) =
      some 0 ∧
    datetime_to_index (h5mobaku_open_readwrite exShiftedStore)
      (REFERENCE_MOBAKU_TIME + 3600) = some 1 := by
  refine ⟨rfl, rfl, rfl, ?_, ?_⟩ <;> decide

/-- Slab models one backing matrix of the virtual composition: its shape and
cell contents, plus its optional `start_datetime` attribute string. -/
structure Slab where
  tdim : Nat
  mdim : Nat
  cell : Nat → Nat → Int
  start_datetime : Option String

/-- VMapEntry is one `H5Pset_virtual` mapping: the hyperslab of the virtual
dataset it covers (row window `[t0, t0 + nt)`, column window `[m0, m0 + nm)`)
and the source cells mapped into it. -/
structure VMapEntry where
  t0 : Nat
  nt : Nat
  m0 : Nat
  nm : Nat
  src : Nat → Nat → Int

/-- Membership of a point in a mapping's target hyperslab. -/
def vmap_contains (e : VMapEntry) (t m : Nat) : Bool :=
  decide (e.t0 ≤ t) && decide (t < e.t0 + e.nt) &&
  decide (e.m0 ≤ m) && decide (m < e.m0 + e.nm)

/-- VirtualDataset models the virtual `population_data` dataset: its extents,
its ordered mapping list, its fill value, and the attribute carried on it. -/
structure VirtualDataset where
  tdim : Nat
  mdim : Nat
  maps : List VMapEntry
  fill : Int
  start_datetime : Option String

/-- Reading one cell of a virtual dataset per the HDF5 VDS semantics: the
first mapping whose target hyperslab contains the point serves it from its
source at the corresponding offset; points covered by no mapping read the fill
value. -/
def vds_read_cell (v : VirtualDataset) (t m : Nat) : Int :=
  match v.maps.find? (fun e => vmap_contains e t m) with
  | some e => e.src (t - e.t0) (m - e.m0)
  | none => v.fill

/-- create_vds_integrated_file (src/src/h5m-reader.c lines 549-673): the
combined dataset has `vds_time_dim + new_time_dim` rows and the larger of the
two mesh widths; mapping one places the historical `population_data` at rows
`[0, T_h)`, mapping two places `population_new` at rows `[T_h, T_h + T_n)`;
the fill value is 0 and the `start_datetime` attribute is copied from the
historical source dataset. -/
def create_vds_integrated_file (hist nw : Slab) : VirtualDataset :=
  { tdim := hist.tdim + nw.tdim
  , mdim := if hist.mdim < nw.mdim then nw.mdim else hist.mdim
  , maps := [⟨0, hist.tdim, 0, hist.mdim, hist.cell⟩, ⟨hist.tdim, nw.tdim, 0, nw.mdim, nw.cell⟩]
  , fill := 0
  , start_datetime := hist.start_datetime }

/-- C4: the virtual matrix serves `V[t, m] = H[t, m]` for `t < T_h` (within
the historical width), `V[t, m] = N'[t - T_h, m]` for `T_h ≤ t < T_h + T_n`
(within the new width), has mesh width `max(N_h, N_n)`, and carries the
`start_datetime` attribute of the historical slab. -/
theorem create_vds_integrated_file_spec (hist nw : Slab) (t m : Nat) :
    (t < hist.tdim → m < hist.mdim →
      vds_read_cell (create_vds_integrated_file hist nw) t m = hist.cell t m) ∧
    (hist.tdim ≤ t → t < hist.tdim + nw.tdim → m < nw.mdim →
      vds_read_cell (create_vds_integrated_file hist nw) t m = nw.cell (t - hist.tdim) m) ∧
    (create_vds_integrated_file hist nw).mdim = max hist.mdim nw.mdim ∧
    (create_vds_integrated_file hist nw).start_datetime = hist.start_datetime := by
  refine ⟨?_, ?_, ?_, rfl⟩
  · intro ht hm
    have hc : vmap_contains ⟨0, hist.tdim, 0, hist.mdim, hist.cell⟩ t m = true := by
      simp [vmap_contains]
      omega
    simp [vds_read_cell, create_vds_integrated_file, List.find?, hc]
  · intro ht1 ht2 hm
    have hc1 : vmap_contains ⟨0, hist.tdim, 0, hist.mdim, hist.cell⟩ t m = false := by
      simp [vmap_contains]
      omega
    have hc2 : vmap_contains ⟨hist.tdim, nw.tdim, 0, nw.mdim, nw.cell⟩ t m = true := by
      simp [vmap_contains]
      omega
    simp [vds_read_cell, create_vds_integrated_file, List.find?, hc1, hc2]
  · simp only [create_vds_integrated_file]
    rw [Nat.max_def]
    by_cases h : hist.mdim < nw.mdim
    · rw [if_pos h, if_pos (Nat.le_of_lt h)]
    · rw [if_neg h]
      by_cases h2 : hist.mdim ≤ nw.mdim
      · rw [if_pos h2]
        omega
      · rw [if_neg h2]

/-- Concrete historical slab (2 × 3) and new slab (2 × 2) used as witnesses. -/
def exHist : Slab := ⟨2, 3, fun t m => (10 * t + m : Int) + 1, some "2016-01-01 00:00:00"⟩

/-- Concrete new slab of the witness composition. -/
def exNew : Slab := ⟨2, 2, fun t m => (100 + 10 * t + m : Int), none⟩

/-- Witness for `create_vds_integrated_file_spec` on the concrete slabs: cell
(1, 2) reads from the historical slab, cell (2, 1) reads from the new slab at
row 0, the width is 3 and the attribute is the historical one. -/
theorem create_vds_integrated_file_spec_witness :
    vds_read_cell (create_vds_integrated_file exHist exNew) 1 2 = exHist.cell 1 2 ∧
    vds_read_cell (create_vds_integrated_file exHist exNew) 2 1 = exNew.cell 0 1 ∧
    (create_vds_integrated_file exHist exNew).mdim = max exHist.mdim exNew.mdim ∧
    (create_vds_integrated_file exHist exNew).start_datetime = exHist.start_datetime :=
  ⟨(create_vds_integrated_file_spec exHist exNew 1 2).1 (by decide) (by decide),
   (create_vds_integrated_file_spec exHist exNew 2 1).2.1 (by decide) (by decide) (by decide),
   (create_vds_integrated_file_spec exHist exNew 2 1).2.2.1,
   (create_vds_integrated_file_spec exHist exNew 2 1).2.2.2⟩

/-- HOURS_PER_YEAR used by `allocate_year_buffer`
(src/src/csv_to_h5_converter.c line 182): a standard 365-day year of hours. -/
def HOURS_PER_YEAR : Nat := 8760

/-- YearBuffer models the dense bulk-year buffer: its element count and its
contents (zero-initialised by the allocation's memset). -/
structure YearBuffer where
  size_elems : Nat
  elems : Nat → Int

/-- allocate_year_buffer (src/src/csv_to_h5_converter.c lines 180-229):
allocates `HOURS_PER_YEAR × MOBAKU_MESH_COUNT` int32 elements, always sized
for the standard 8760-hour year, and zero-fills them. -/
def allocate_year_buffer : YearBuffer :=
  { size_elems := HOURS_PER_YEAR * MOBAKU_MESH_COUNT
  , elems := fun _ => 0 }

/-- Leap-year test used by the bulk producer
(src/src/csv_to_h5_converter.c line 554). -/
def is_leap_year (y : Nat) : Bool := (y % 4 == 0 && y % 100 != 0) || (y % 400 == 0)

/-- Month lengths used by the bulk producer's day-of-year computation
(src/src/csv_to_h5_converter.c lines 553-555). -/
def days_in_month (leap : Bool) : List Nat :=
  [31, if leap then 29 else 28, 31, 30, 31, 30, 31, 31, 30, 31, 30, 31]

/-- Day-of-year (0-based) as the bulk producer computes it
(src/src/csv_to_h5_converter.c lines 557-560). -/
def day_of_year (leap : Bool) (month day : Nat) : Nat :=
  (day - 1) + (((days_in_month leap).take (month - 1)).sum)

/-- BulkRecordOutcome distinguishes how the bulk producer disposed of one
record: rejected by the `max_hours` range check (counted as an error in the
verbose path), stored into the buffer, or silently dropped by the buffer-size
bounds check (the row is still counted as processed). -/
inductive BulkRecordOutcome where
  | rangeError
  | stored (offset : Nat)
  | droppedByBoundsCheck (offset : Nat)
deriving DecidableEq, Repr

/-- Bulk-mode handling of one CSV record by the producer
(src/src/csv_to_h5_converter.c lines 540-633): split the date into year,
month, day and the time into the hour, compute the year-relative hour index
`day_of_year · 24 + hour`, reject it against `max_hours` (8784 for leap years,
8760 otherwise), then write `buffer[time_idx · MOBAKU_MESH_COUNT + mesh_idx]`
only when that offset passes the bounds check against the allocated buffer
size. -/
def bulk_producer_process_record (buf : YearBuffer) (date timeOfDay mesh_idx : Nat)
    (population : Int) : YearBuffer × BulkRecordOutcome :=
  let year := date / 10000
  let month := date / 100 % 100
  let day := date % 100
  let hour := timeOfDay / 100
  let leap := is_leap_year year
  let time_idx := day_of_year leap month day * 24 + hour
  let max_hours := if leap then 8784 else 8760
  if max_hours ≤ time_idx then (buf, BulkRecordOutcome.rangeError)
  else
    let buffer_offset := time_idx * MOBAKU_MESH_COUNT + mesh_idx
    if buffer_offset < buf.size_elems then
      ({ buf with elems := fun i => if i = buffer_offset then population else buf.elems i }
      , BulkRecordOutcome.stored buffer_offset)
    else (buf, BulkRecordOutcome.droppedByBoundsCheck buffer_offset)

/-- C9: the claim says the dense year buffer accommodates both 8760-row and
8784-row years, storing every valid leap-year record, including hours 8760
through 8783, at `buffer[day_of_year · 24 + hour, mesh_index]`.  The concrete
leap-year record 2016-12-31 01:00 (hour index 8761, accepted by the producer's
own `max_hours = 8784` validity check) is silently dropped by the bounds check
because the buffer is always allocated with 8760 rows, and the buffer cell
keeps the value 0 instead of the record's population 42; an in-range record of
the same year (2016-01-01 01:00, hour index 1) is stored as claimed. -/
theorem bulk_leap_year_hour_dropped :
    is_leap_year 2016 = true ∧
    day_of_year true 12 31 * 24 + 1 = 8761 ∧
    8761 < 8784 ∧
    allocate_year_buffer.size_elems = 8760 * MOBAKU_MESH_COUNT ∧
    (bulk_producer_process_record allocate_year_buffer 20161231 100 0 42).2 =
      BulkRecordOutcome.droppedByBoundsCheck (8761 * MOBAKU_MESH_COUNT) ∧
    (bulk_producer_process_record allocate_year_buffer 20161231 100 0 42).1.elems
      (8761 * MOBAKU_MESH_COUNT) = 0 ∧
    (bulk_producer_process_record allocate_year_buffer 20160101 100 0 42).2 =
      BulkRecordOutcome.stored (1 * MOBAKU_MESH_COUNT) ∧
    (bulk_producer_process_record allocate_year_buffer 20160101 100 0 42).1.elems
      (1 * MOBAKU_MESH_COUNT) = 42 := by
  refine ⟨by decide, by decide, by decide, rfl, ?_, ?_, ?_, ?_⟩ <;> decide

end H5Mobaku
